import Mathlib

/-!
Verification development for the cloud-resource-operator sources:
`pkg/providers/aws/provider_redis.go` (the ElastiCache Redis provider) and
`pkg/controller/redissnapshot` (the RedisSnapshot reconciler).

The Go code is shallowly embedded: the external control plane (AWS
ElastiCache), the object store and the credential/config helpers are
represented by explicit oracle fields in an environment record, and each
Go function becomes a pure Lean function from that environment to its
results plus a trace of the externally visible actions it performed.
Nil-pointer dereferences and out-of-range indexing in the source are
represented by an explicit `crash` outcome.
-/

/-! ## External entities (AWS ElastiCache data model) -/

/-- A primary endpoint of a node group (`elasticache.Endpoint`): address and port. -/
structure Endpoint where
  address : String
  port : Int
deriving DecidableEq, Repr

/-- A member of a node group (`elasticache.NodeGroupMember`). -/
structure NodeGroupMember where
  cacheClusterId : String
  currentRole : String
deriving DecidableEq, Repr

/-- A node group of a replication group (`elasticache.NodeGroup`).
The primary endpoint is a pointer in the SDK, hence `Option`. -/
structure NodeGroup where
  primaryEndpoint : Option Endpoint
  nodeGroupMembers : List NodeGroupMember
deriving DecidableEq, Repr

/-- An external replication group (`elasticache.ReplicationGroup`). -/
structure ReplicationGroup where
  replicationGroupId : String
  status : String
  nodeGroups : List NodeGroup
deriving DecidableEq, Repr

/-- An external snapshot (`elasticache.Snapshot`). -/
structure Snapshot where
  snapshotName : String
  snapshotStatus : String
deriving DecidableEq, Repr

/-- `elasticache.ErrCodeReplicationGroupNotFoundFault`, the AWS error
classification code for a missing replication group. -/
def ErrCodeReplicationGroupNotFoundFault : String := "ReplicationGroupNotFoundFault"

/-- Result of the `DeleteReplicationGroup` call: success, an AWS-classified
error (`awserr.Error`, carrying a code and a message), or a non-AWS error. -/
inductive DeleteCallResult where
  | ok
  | awsError (code : String) (message : String)
  | otherError (message : String)
deriving DecidableEq, Repr

/-- The ElastiCache service client (`elasticacheiface.ElastiCacheAPI`) as an
oracle: `describeReplicationGroups` gives the outcome of the n-th describe
attempt of the poll loop; the create/delete fields give the outcomes of the
corresponding calls, should they be issued. -/
structure CacheSvc where
  describeReplicationGroups : Nat → Except String (List ReplicationGroup)
  createReplicationGroup : Option String
  deleteReplicationGroup : DeleteCallResult

/-! ## Listing / polling primitive (`getReplicationGroups`, provider_redis.go 219-234) -/

/-- The poll interval passed to `wait.PollImmediate` (`time.Second*5`), in seconds. -/
def pollIntervalSeconds : Nat := 5

/-- The poll timeout passed to `wait.PollImmediate` (`time.Minute*5`), in seconds. -/
def pollTimeoutSeconds : Nat := 5 * 60

/-- Number of condition invocations `wait.PollImmediate` makes within the
bound: one immediate attempt plus one per interval tick until the timeout.
Time is modelled discretely, one attempt per tick. -/
def pollMaxAttempts : Nat := pollTimeoutSeconds / pollIntervalSeconds + 1

/-- The error `wait.PollImmediate` returns when the bound is exceeded
(`wait.ErrWaitTimeout`). -/
def waitTimeoutMessage : String := "timed out waiting for the condition"

/-- The poll loop of `getReplicationGroups`: each attempt issues
`DescribeReplicationGroups`; an error makes the condition return
`(false, nil)` (keep polling), a success returns the listed groups. -/
def pollLoop (d : Nat → Except String (List ReplicationGroup)) :
    Nat → Nat → Except String (List ReplicationGroup)
  | _, 0 => Except.error waitTimeoutMessage
  | attempt, fuel + 1 =>
    match d attempt with
    | Except.error _ => pollLoop d (attempt + 1) fuel
    | Except.ok rgs => Except.ok rgs

/-- `getReplicationGroups` (provider_redis.go 219-234): poll the describe-all
call every 5 seconds for at most 5 minutes. -/
def getReplicationGroups (svc : CacheSvc) : Except String (List ReplicationGroup) :=
  pollLoop svc.describeReplicationGroups 0 pollMaxAttempts

/-! ## Cluster create path (`createRedisCluster`, provider_redis.go 100-149) -/

/-- `providers.RedisDeploymentDetails`: the URI and port handed back on success. -/
structure RedisDeploymentDetails where
  uri : String
  port : Int
deriving DecidableEq, Repr

/-- Outcome of a provider call: a value, a returned error, or a runtime
crash (nil dereference / index out of range) in the source. -/
inductive CreateOutcome where
  | ok (details : Option RedisDeploymentDetails)
  | fail (msg : String)
  | crash (site : String)
deriving DecidableEq, Repr

/-- Result of one `createRedisCluster` pass together with whether a
`CreateReplicationGroup` call was issued during it. -/
structure CreateStep where
  result : CreateOutcome
  createCalled : Bool
deriving DecidableEq, Repr

/-- The linear search of the create/delete paths (provider_redis.go 111-116 and
184-189): first listed group whose id equals the resolved id. -/
def findGroup : List ReplicationGroup → String → Option ReplicationGroup
  | [], _ => none
  | c :: rest, gid => if c.replicationGroupId = gid then some c else findGroup rest gid

/-- `createRedisCluster` (provider_redis.go 100-149). The listing goes through
`getReplicationGroups`; a found group with status `available` yields the
primary endpoint of `NodeGroups[0]` (crashing where the source would index an
empty slice or dereference a nil pointer); a found group in any other status
yields `(nil, nil)`; an absent group leads to a `CreateReplicationGroup` call
(the `verifyRedisConfig` defaulting only fills config fields and does not
affect the results modelled here). -/
def createRedisCluster (svc : CacheSvc) (replicationGroupId : String) : CreateStep :=
  match getReplicationGroups svc with
  | Except.error e => ⟨CreateOutcome.fail e, false⟩
  | Except.ok rgs =>
    match findGroup rgs replicationGroupId with
    | some foundCache =>
      if foundCache.status = "available" then
        match foundCache.nodeGroups.head? with
        | none => ⟨CreateOutcome.crash "NodeGroups[0]: index out of range", false⟩
        | some ng0 =>
          match ng0.primaryEndpoint with
          | none => ⟨CreateOutcome.crash "PrimaryEndpoint: nil dereference", false⟩
          | some pe => ⟨CreateOutcome.ok (some ⟨pe.address, pe.port⟩), false⟩
      else ⟨CreateOutcome.ok none, false⟩
    | none =>
      match svc.createReplicationGroup with
      | some e => ⟨CreateOutcome.fail e, true⟩
      | none => ⟨CreateOutcome.ok none, true⟩

/-! ## The provider entry points (`CreateRedis` / `deleteRedisCluster`) -/

/-- The `Redis` custom resource as the provider sees it: name, deletion
timestamp and the provider finalizer marker on its metadata. -/
structure RedisObj where
  name : String
  deletionTimestamp : Option Nat
  hasFinalizer : Bool
deriving DecidableEq, Repr

/-- Modelled from the spec: `resources.AddFinalizer` (pkg/resources, not under
src/) attaches the finalizer marker to the object's metadata. -/
def addFinalizer (r : RedisObj) : RedisObj := { r with hasFinalizer := true }

/-- Modelled from the spec: `resources.RemoveFinalizer` (pkg/resources, not
under src/) clears the finalizer marker from the object's metadata. -/
def removeFinalizer (r : RedisObj) : RedisObj := { r with hasFinalizer := false }

/-- Externally visible actions of one provider pass. -/
inductive PEvent where
  | finalizerAdd
  | finalizerRemove
  | persistUpdate
  | createCall
  | deleteCall
deriving DecidableEq, Repr

/-- Oracle environment of a provider pass: the cache service plus the outcomes
of `Client.Update`, `getRedisConfig` (its resolved `ReplicationGroupId`, which
the config may omit) and `ReconcileProviderCredentials`. -/
structure ProviderEnv where
  svc : CacheSvc
  clientUpdate : Option String
  redisConfigGroupId : Except String (Option String)
  providerCreds : Except String Unit

/-- Result of a `CreateRedis` pass: the (in-memory) object, the trace of
actions, and the returned value/error. -/
structure CreateOut where
  obj : RedisObj
  trace : List PEvent
  result : CreateOutcome
deriving Repr

/-- Result of a `deleteRedisCluster` pass. -/
structure DeleteOut where
  obj : RedisObj
  trace : List PEvent
  err : Option String
deriving Repr

/-- `CreateRedis` after the finalizer block (provider_redis.go 70-89): resolve
the config (defaulting the group id to the object name), reconcile the
provider credentials, then run `createRedisCluster`. -/
def createRedisRest (env : ProviderEnv) (r : RedisObj) : CreateOut :=
  match env.redisConfigGroupId with
  | Except.error e =>
    ⟨r, [], CreateOutcome.fail
      ("failed to retrieve aws redis cluster config for instance " ++ r.name ++ ": " ++ e)⟩
  | Except.ok gidOpt =>
    let gid := gidOpt.getD r.name
    match env.providerCreds with
    | Except.error e =>
      ⟨r, [], CreateOutcome.fail ("failed to reconcile s3 put object credentials: " ++ e)⟩
    | Except.ok _ =>
      let step := createRedisCluster env.svc gid
      ⟨r, if step.createCalled then [PEvent.createCall] else [], step.result⟩

/-- `CreateRedis` (provider_redis.go 61-90): when the object has no deletion
timestamp, attach the finalizer and persist it (a persistence failure aborts
the pass) before any further work. -/
def CreateRedis (env : ProviderEnv) (r : RedisObj) : CreateOut :=
  if r.deletionTimestamp = none then
    let r1 := addFinalizer r
    match env.clientUpdate with
    | some e =>
      ⟨r1, [PEvent.finalizerAdd], CreateOutcome.fail ("failed to add finalizer to instance: " ++ e)⟩
    | none =>
      let rest := createRedisRest env r1
      ⟨rest.obj, PEvent.finalizerAdd :: PEvent.persistUpdate :: rest.trace, rest.result⟩
  else
    createRedisRest env r

/-- `deleteRedisCluster` (provider_redis.go 175-217): list the groups; if the
target is absent, remove the finalizer and persist; if present and
`available`, issue the delete call, normalising a not-found AWS code to
success; otherwise no action this pass. -/
def deleteRedisCluster (env : ProviderEnv) (replicationGroupId : String) (r : RedisObj) :
    DeleteOut :=
  match getReplicationGroups env.svc with
  | Except.error e => ⟨r, [], some e⟩
  | Except.ok rgs =>
    match findGroup rgs replicationGroupId with
    | none =>
      let r1 := removeFinalizer r
      match env.clientUpdate with
      | some e =>
        ⟨r1, [PEvent.finalizerRemove],
          some ("failed to update instance as part of finalizer reconcile: " ++ e)⟩
      | none => ⟨r1, [PEvent.finalizerRemove, PEvent.persistUpdate], none⟩
    | some foundCache =>
      if foundCache.status = "available" then
        match env.svc.deleteReplicationGroup with
        | DeleteCallResult.ok => ⟨r, [PEvent.deleteCall], none⟩
        | DeleteCallResult.awsError code msg =>
          if code = ErrCodeReplicationGroupNotFoundFault then ⟨r, [PEvent.deleteCall], none⟩
          else
            ⟨r, [PEvent.deleteCall],
              some ("failed to delete elasticache cluster " ++ replicationGroupId
                ++ ", aws error: " ++ msg)⟩
        | DeleteCallResult.otherError msg =>
          ⟨r, [PEvent.deleteCall],
            some ("failed to delete elasticache cluster " ++ replicationGroupId ++ ": " ++ msg)⟩
      else ⟨r, [], none⟩

/-! ## The RedisSnapshot reconciler (pkg/controller/redissnapshot) -/

/-- Modelled from the spec: the `croType` phase constants
(pkg/apis/.../types, not under src/) used by the reconciler. -/
inductive Phase where
  | pending
  | inProgress
  | complete
  | failed
deriving DecidableEq, Repr

/-- The `RedisSnapshot` custom resource as the reconciler reads it. -/
structure SnapshotInstance where
  name : String
  resourceName : String
  phase : Phase
deriving DecidableEq, Repr

/-- The referenced `Redis` custom resource; only the deployment strategy of
its status is consulted by the reconciler. -/
structure RedisCr where
  strategy : String
deriving DecidableEq, Repr

/-- The zero value a failed `client.Get` leaves in the pre-allocated
`&integreatly.Redis{}`: every string field empty. -/
def zeroRedisCr : RedisCr := ⟨""⟩

/-- Modelled from the spec: `providers.AWSDeploymentStrategy` (pkg/providers,
not under src/), the deployment-strategy tag this system manages. -/
def AWSDeploymentStrategy : String := "aws"

/-- Outcome of the initial `client.Get` of the RedisSnapshot instance. -/
inductive GetInstanceResult where
  | found (inst : SnapshotInstance)
  | notFound
  | getError (e : String)

/-- Externally visible actions of one reconciliation pass. `phaseUpdate` is a
`resources.UpdateSnapshotPhase` call writing phase and message to the
request's status. -/
inductive SnapEvent where
  | strategyCheck
  | readStrategyCall
  | credsCall
  | describeSnapshotsCall
  | describeReplicationGroupsCall
  | createSnapshotCall (cacheClusterId : String)
  | phaseUpdate (phase : Phase) (message : String)
deriving DecidableEq, Repr

/-- Final value of a reconciliation pass: the returned
`(reconcile.Result, error)` pair, or a runtime crash in the source. -/
inductive SnapOutcome where
  | done (requeue : Bool) (requeueAfterSeconds : Nat) (err : Option String)
  | crash (site : String)
deriving DecidableEq, Repr

/-- Oracle environment of one reconciliation pass. Each field is the outcome
the corresponding external call would have if issued. `updatePhase` is the
persistence outcome of `resources.UpdateSnapshotPhase` (modelled from the
spec: it writes phase and message and persists them, and can fail);
`statusPtrAddr` is the runtime address of the `*string` status field,
relevant only to how `fmt` renders the undereferenced pointer. -/
structure SnapshotEnv where
  getInstance : GetInstanceResult
  getRedis : Except String RedisCr
  readStorageStrategy : Except String Unit
  reconcileProviderCredentials : Except String Unit
  buildSnapshotName : Except String String
  buildClusterName : Except String String
  describeSnapshots : Except String (List Snapshot)
  describeReplicationGroups : Except String (List ReplicationGroup)
  createSnapshot : Option String
  updatePhase : Option String
  statusPtrAddr : Nat

/-- `pkg/errors.Wrap`: nil in, nil out; otherwise message, colon, cause. -/
def wrapErr (e : Option String) (msg : String) : Option String :=
  match e with
  | none => none
  | some s => some (msg ++ ": " ++ s)

/-- The error component of an `Except`, as the Go `err` variable would hold it. -/
def errOpt {α : Type} : Except String α → Option String
  | Except.error e => some e
  | Except.ok _ => none

/-- How `fmt` renders a `%s` verb applied to an undereferenced `*string`
operand: the bad-verb form carrying the pointer's hex address, never the
pointed-to text. -/
def goPtrFormat (addr : Nat) : String :=
  "%!s(*string=0x" ++ String.mk (Nat.toDigits 16 addr) ++ ")"

/-- The snapshot search loop (part_000 192-198). -/
def findSnapshot : List Snapshot → String → Option Snapshot
  | [], _ => none
  | c :: rest, n => if c.snapshotName = n then some c else findSnapshot rest n

/-- The primary-member search loop (part_000 215-221). -/
def findPrimaryMember : List NodeGroupMember → Option NodeGroupMember
  | [] => none
  | m :: rest => if m.currentRole = "primary" then some m else findPrimaryMember rest

/-- Prepend one event to a stage result. -/
def consEv (e : SnapEvent) (p : List SnapEvent × SnapOutcome) : List SnapEvent × SnapOutcome :=
  (e :: p.1, p.2)

/-- Reconcile, lines 188-252: the two describe calls (their error results are
ignored by the source; each aws-sdk-go v1 operation allocates its output
struct before sending, so on error the output is a non-nil zero value whose
slices are nil — ranging over the nil `Snapshots` slice performs zero
iterations and the pass continues with no snapshot found, while indexing the
nil `ReplicationGroups` slice at 0 panics, exactly as it does on a successful
zero-group listing), the availability gate with its undereferenced-pointer
message, the primary search, and the create/complete/in-progress branches.
Note the source's fall-through after the Complete update: there is no return,
so the in-progress update at the end of the function runs as well. -/
def reconcileSnapshotWork (env : SnapshotEnv) (snapshotName : String) :
    List SnapEvent × SnapOutcome :=
  let snaps :=
    match env.describeSnapshots with
    | Except.error _ => []
    | Except.ok s => s
  let foundSnapshot := findSnapshot snaps snapshotName
  let pre := [SnapEvent.describeSnapshotsCall, SnapEvent.describeReplicationGroupsCall]
  let rgsListed :=
    match env.describeReplicationGroups with
    | Except.error _ => []
    | Except.ok l => l
  match rgsListed with
  | [] =>
    (pre, SnapOutcome.crash "cacheOutput.ReplicationGroups[0]: index out of range")
  | g :: _ =>
      if g.status = "available" then
        match g.nodeGroups with
        | [] => (pre, SnapOutcome.crash "NodeGroups[0]: index out of range")
        | ng0 :: _ =>
          let cacheName :=
            match findPrimaryMember ng0.nodeGroupMembers with
            | some m => m.cacheClusterId
            | none => ""
          match foundSnapshot with
          | none =>
            match env.createSnapshot with
            | some e =>
              (pre ++ [SnapEvent.createSnapshotCall cacheName],
                SnapOutcome.done false 0
                  (some ("error creating elasticache snapshot " ++ e ++ ": " ++ e)))
            | none =>
              match env.updatePhase with
              | some ue =>
                (pre ++ [SnapEvent.createSnapshotCall cacheName,
                    SnapEvent.phaseUpdate Phase.inProgress "snapshot creation in progress"],
                  SnapOutcome.done false 0 (some ue))
              | none =>
                (pre ++ [SnapEvent.createSnapshotCall cacheName,
                    SnapEvent.phaseUpdate Phase.inProgress "snapshot creation in progress"],
                  SnapOutcome.done true 60 none)
          | some snap =>
            if snap.snapshotStatus = "available" then
              match env.updatePhase with
              | some _ =>
                (pre ++ [SnapEvent.phaseUpdate Phase.complete "snapshot created"],
                  SnapOutcome.done false 0 (errOpt env.describeReplicationGroups))
              | none =>
                (pre ++ [SnapEvent.phaseUpdate Phase.complete "snapshot created",
                    SnapEvent.phaseUpdate Phase.inProgress
                      ("current snapshot status :  " ++ snap.snapshotStatus)],
                  SnapOutcome.done true 60 none)
            else
              match env.updatePhase with
              | some ue =>
                (pre ++ [SnapEvent.phaseUpdate Phase.inProgress
                    ("current snapshot status :  " ++ snap.snapshotStatus)],
                  SnapOutcome.done false 0 (some ue))
              | none =>
                (pre ++ [SnapEvent.phaseUpdate Phase.inProgress
                    ("current snapshot status :  " ++ snap.snapshotStatus)],
                  SnapOutcome.done true 60 none)
      else
        match env.updatePhase with
        | some ue =>
          (pre ++ [SnapEvent.phaseUpdate Phase.failed
              ("current replication group status is " ++ goPtrFormat env.statusPtrAddr)],
            SnapOutcome.done false 0 (some ue))
        | none =>
          (pre ++ [SnapEvent.phaseUpdate Phase.failed
              ("current replication group status is " ++ goPtrFormat env.statusPtrAddr)],
            SnapOutcome.done true 60
              (wrapErr (errOpt env.describeReplicationGroups) "failed to get cluster name"))

/-- Reconcile, lines 168-186: generate the snapshot and cluster names, each
failure transitioning to Failed and returning. -/
def reconcileFromNames (env : SnapshotEnv) : List SnapEvent × SnapOutcome :=
  match env.buildSnapshotName with
  | Except.error e =>
    match env.updatePhase with
    | some ue =>
      ([SnapEvent.phaseUpdate Phase.failed "failed to generate snapshot name"],
        SnapOutcome.done false 0 (some ue))
    | none =>
      ([SnapEvent.phaseUpdate Phase.failed "failed to generate snapshot name"],
        SnapOutcome.done false 0 (some ("failed to generate snapshot name: " ++ e)))
  | Except.ok snapshotName =>
    match env.buildClusterName with
    | Except.error e =>
      match env.updatePhase with
      | some ue =>
        ([SnapEvent.phaseUpdate Phase.failed "failed to get cluster name"],
          SnapOutcome.done false 0 (some ue))
      | none =>
        ([SnapEvent.phaseUpdate Phase.failed "failed to get cluster name"],
          SnapOutcome.done false 0 (some ("failed to get cluster name: " ++ e)))
    | Except.ok _ => reconcileSnapshotWork env snapshotName

/-- Reconcile, lines 152-160: reconcile the provider credentials. -/
def reconcileFromCreds (env : SnapshotEnv) : List SnapEvent × SnapOutcome :=
  consEv SnapEvent.credsCall
    (match env.reconcileProviderCredentials with
    | Except.error e =>
      match env.updatePhase with
      | some ue =>
        ([SnapEvent.phaseUpdate Phase.failed "failed to reconcile elasticache credentials"],
          SnapOutcome.done false 0 (some ue))
      | none =>
        ([SnapEvent.phaseUpdate Phase.failed "failed to reconcile elasticache credentials"],
          SnapOutcome.done false 0
            (some ("failed to reconcile elasticache credentials: " ++ e)))
    | Except.ok _ => reconcileFromNames env)

/-- Reconcile, lines 140-150: read the storage strategy config. -/
def reconcileFromConfig (env : SnapshotEnv) : List SnapEvent × SnapOutcome :=
  consEv SnapEvent.readStrategyCall
    (match env.readStorageStrategy with
    | Except.error e =>
      match env.updatePhase with
      | some ue =>
        ([SnapEvent.phaseUpdate Phase.failed e], SnapOutcome.done false 0 (some ue))
      | none =>
        ([SnapEvent.phaseUpdate Phase.failed e], SnapOutcome.done false 0 (some e))
    | Except.ok _ => reconcileFromCreds env)

/-- Reconcile, lines 131-138: check the referenced cluster's deployment
strategy is the AWS one. -/
def reconcileFromStrategyCheck (env : SnapshotEnv) (redisCr : RedisCr) :
    List SnapEvent × SnapOutcome :=
  consEv SnapEvent.strategyCheck
    (if redisCr.strategy = AWSDeploymentStrategy then reconcileFromConfig env
    else
      match env.updatePhase with
      | some ue =>
        ([SnapEvent.phaseUpdate Phase.failed "none supported deployment strategy"],
          SnapOutcome.done false 0 (some ue))
      | none =>
        ([SnapEvent.phaseUpdate Phase.failed "none supported deployment strategy"],
          SnapOutcome.done false 0 (some "none supported deployment strategy")))

/-- `ReconcileRedisSnapshot.Reconcile` (part_000 97-253). When the fetch of the
referenced Redis cr fails, the source sets phase Failed but has no return
statement there: execution continues with the zero-valued cr. -/
def Reconcile (env : SnapshotEnv) : List SnapEvent × SnapOutcome :=
  match env.getInstance with
  | GetInstanceResult.notFound => ([], SnapOutcome.done false 0 none)
  | GetInstanceResult.getError e => ([], SnapOutcome.done false 0 (some e))
  | GetInstanceResult.found inst =>
    if inst.phase = Phase.complete then ([], SnapOutcome.done false 0 none)
    else
      match env.getRedis with
      | Except.error e =>
        let failTrace := [SnapEvent.phaseUpdate Phase.failed ("failed to get redis cr : " ++ e)]
        match env.updatePhase with
        | some ue => (failTrace, SnapOutcome.done false 0 (some ue))
        | none =>
          let rest := reconcileFromStrategyCheck env zeroRedisCr
          (failTrace ++ rest.1, rest.2)
      | Except.ok redisCr => reconcileFromStrategyCheck env redisCr

/-- Naive substring test used to state facts about status messages. -/
def strContains (s pat : String) : Bool :=
  (List.range (s.length + 1)).any (fun i => pat.toList.isPrefixOf (s.toList.drop i))

/-! ## Concrete states used to evaluate the theorems -/

/-- A service whose listing is empty and whose calls succeed. -/
def c1SvcW : CacheSvc := ⟨fun _ => Except.ok [], none, DeleteCallResult.ok⟩

/-- Provider environment with an empty external listing. -/
def c1EnvW : ProviderEnv := ⟨c1SvcW, none, Except.ok none, Except.ok ()⟩

/-- A fresh Redis object: no deletion timestamp, no finalizer yet. -/
def c1ObjW : RedisObj := ⟨"foo", none, false⟩

/-- An available replication group with a primary endpoint. -/
def c2GroupW : ReplicationGroup :=
  ⟨"foo", "available", [⟨some ⟨"10.0.0.5", 6379⟩, [⟨"foo-001", "primary"⟩]⟩]⟩

/-- A service listing exactly `c2GroupW`. -/
def c2SvcW : CacheSvc := ⟨fun _ => Except.ok [c2GroupW], none, DeleteCallResult.ok⟩

/-- A replication group still provisioning. -/
def c3GroupW : ReplicationGroup := ⟨"foo", "creating", []⟩

/-- A service listing exactly `c3GroupW`. -/
def c3SvcW : CacheSvc := ⟨fun _ => Except.ok [c3GroupW], none, DeleteCallResult.ok⟩

/-- A Redis object mid-deletion, still carrying the finalizer. -/
def c6ObjW : RedisObj := ⟨"foo", some 1, true⟩

/-- Delete scenario: the group is absent from the listing. -/
def c6EnvAbsent : ProviderEnv :=
  ⟨⟨fun _ => Except.ok [], none, DeleteCallResult.ok⟩, none, Except.ok none, Except.ok ()⟩

/-- An available group with the target id (node groups irrelevant to delete). -/
def c6AvailGroup : ReplicationGroup := ⟨"foo", "available", []⟩

/-- Delete scenario: the delete call reports the not-found AWS code. -/
def c6EnvNotFoundErr : ProviderEnv :=
  ⟨⟨fun _ => Except.ok [c6AvailGroup], none,
      DeleteCallResult.awsError ErrCodeReplicationGroupNotFoundFault
        "replication group foo not found"⟩,
    none, Except.ok none, Except.ok ()⟩

/-- Delete scenario: the delete call reports a different AWS code. -/
def c6EnvOtherAws : ProviderEnv :=
  ⟨⟨fun _ => Except.ok [c6AvailGroup], none,
      DeleteCallResult.awsError "InvalidParameterValue" "bad input"⟩,
    none, Except.ok none, Except.ok ()⟩

/-- Delete scenario: the delete call fails with a non-AWS error. -/
def c6EnvPlain : ProviderEnv :=
  ⟨⟨fun _ => Except.ok [c6AvailGroup], none, DeleteCallResult.otherError "net timeout"⟩,
    none, Except.ok none, Except.ok ()⟩

/-- A describe oracle failing on the first attempt and succeeding on the second. -/
def c9SvcW : CacheSvc :=
  ⟨fun k => if k = 0 then Except.error "connection reset" else Except.ok [],
    none, DeleteCallResult.ok⟩

/-- A snapshot request already Complete. -/
def c5EnvW : SnapshotEnv :=
  { getInstance := GetInstanceResult.found ⟨"snapreq", "bar", Phase.complete⟩
    getRedis := Except.ok ⟨"aws"⟩
    readStorageStrategy := Except.ok ()
    reconcileProviderCredentials := Except.ok ()
    buildSnapshotName := Except.ok "snap-bar"
    buildClusterName := Except.ok "bar"
    describeSnapshots := Except.ok []
    describeReplicationGroups := Except.ok []
    createSnapshot := none
    updatePhase := none
    statusPtrAddr := 12 }

/-- A pass in which everything succeeds and the snapshot is already available. -/
def c4EnvW : SnapshotEnv :=
  { getInstance := GetInstanceResult.found ⟨"snapreq", "bar", Phase.inProgress⟩
    getRedis := Except.ok ⟨"aws"⟩
    readStorageStrategy := Except.ok ()
    reconcileProviderCredentials := Except.ok ()
    buildSnapshotName := Except.ok "snap-bar-20240101"
    buildClusterName := Except.ok "bar"
    describeSnapshots := Except.ok [⟨"snap-bar-20240101", "available"⟩]
    describeReplicationGroups :=
      Except.ok [⟨"bar", "available", [⟨some ⟨"10.0.0.5", 6379⟩, [⟨"bar-001", "primary"⟩]⟩]⟩]
    createSnapshot := none
    updatePhase := none
    statusPtrAddr := 12 }

/-- A pass in which the fetch of the referenced Redis cr fails. -/
def c7EnvW : SnapshotEnv :=
  { getInstance := GetInstanceResult.found ⟨"snapreq", "bar", Phase.pending⟩
    getRedis := Except.error "redis cr not found"
    readStorageStrategy := Except.ok ()
    reconcileProviderCredentials := Except.ok ()
    buildSnapshotName := Except.ok "snap-bar"
    buildClusterName := Except.ok "bar"
    describeSnapshots := Except.ok []
    describeReplicationGroups := Except.ok []
    createSnapshot := none
    updatePhase := none
    statusPtrAddr := 12 }

/-- A pass reaching the availability gate with the group in status `modifying`. -/
def c8EnvW : SnapshotEnv :=
  { getInstance := GetInstanceResult.found ⟨"snapreq", "bar", Phase.pending⟩
    getRedis := Except.ok ⟨"aws"⟩
    readStorageStrategy := Except.ok ()
    reconcileProviderCredentials := Except.ok ()
    buildSnapshotName := Except.ok "snap-bar"
    buildClusterName := Except.ok "bar"
    describeSnapshots := Except.ok []
    describeReplicationGroups :=
      Except.ok [⟨"bar", "modifying", [⟨none, [⟨"bar-001", "primary"⟩]⟩]⟩]
    createSnapshot := none
    updatePhase := none
    statusPtrAddr := 12 }

/-- A pass in which the replication-group listing comes back empty (the
snapshot listing call also fails there; its ignored error leaves an empty
listing and does not stop the pass). -/
def c10EnvW : SnapshotEnv :=
  { getInstance := GetInstanceResult.found ⟨"snapreq", "bar", Phase.pending⟩
    getRedis := Except.ok ⟨"aws"⟩
    readStorageStrategy := Except.ok ()
    reconcileProviderCredentials := Except.ok ()
    buildSnapshotName := Except.ok "snap-bar"
    buildClusterName := Except.ok "bar"
    describeSnapshots := Except.error "service unavailable"
    describeReplicationGroups := Except.ok []
    createSnapshot := none
    updatePhase := none
    statusPtrAddr := 12 }

/-- A pass in which only the snapshot listing call fails while the
replication group is available with a primary member: the pass stays
defined and proceeds to create a snapshot. -/
def c10CounterEnvW : SnapshotEnv :=
  { getInstance := GetInstanceResult.found ⟨"snapreq", "bar", Phase.pending⟩
    getRedis := Except.ok ⟨"aws"⟩
    readStorageStrategy := Except.ok ()
    reconcileProviderCredentials := Except.ok ()
    buildSnapshotName := Except.ok "snap-bar"
    buildClusterName := Except.ok "bar"
    describeSnapshots := Except.error "service unavailable"
    describeReplicationGroups :=
      Except.ok [⟨"bar", "available", [⟨some ⟨"10.0.0.5", 6379⟩, [⟨"bar-001", "primary"⟩]⟩]⟩]
    createSnapshot := none
    updatePhase := none
    statusPtrAddr := 12 }

/-! ## Theorems -/

/-- The trace of the post-finalizer part of `CreateRedis` is empty or a single
create call. -/
theorem createRedisRest_trace_cases (env : ProviderEnv) (r : RedisObj) :
    (createRedisRest env r).trace = [] ∨
    (createRedisRest env r).trace = [PEvent.createCall] := by
  unfold createRedisRest
  cases env.redisConfigGroupId with
  | error e => exact Or.inl rfl
  | ok gidOpt =>
    cases env.providerCreds with
    | error e => exact Or.inl rfl
    | ok u =>
      cases h : (createRedisCluster env.svc (gidOpt.getD r.name)).createCalled with
      | false => exact Or.inl (by simp [h])
      | true => exact Or.inr (by simp [h])

/-- C1: Finalizer protocol. In a `CreateRedis` pass on an object with no
deletion timestamp, any create attempt is preceded by the finalizer add and
its persisting update; `CreateRedis` never removes the finalizer; and
`deleteRedisCluster` removes the finalizer exactly when the describe/list of
that same pass succeeded and contained no group with the resolved
replication-group id. -/
theorem c1_finalizer_protocol (env denv : ProviderEnv) (r dr : RedisObj) (gid : String) :
    (r.deletionTimestamp = none → PEvent.createCall ∈ (CreateRedis env r).trace →
      ∃ t, (CreateRedis env r).trace = PEvent.finalizerAdd :: PEvent.persistUpdate :: t) ∧
    PEvent.finalizerRemove ∉ (CreateRedis env r).trace ∧
    (PEvent.finalizerRemove ∈ (deleteRedisCluster denv gid dr).trace ↔
      ∃ rgs, getReplicationGroups denv.svc = Except.ok rgs ∧ findGroup rgs gid = none) := by
  refine ⟨?_, ?_, ?_⟩
  · intro hdel hmem
    cases hcu : env.clientUpdate with
    | some e => simp [CreateRedis, hdel, hcu] at hmem
    | none =>
      exact ⟨(createRedisRest env (addFinalizer r)).trace, by simp [CreateRedis, hdel, hcu]⟩
  · cases hdel : r.deletionTimestamp with
    | none =>
      cases hcu : env.clientUpdate with
      | some e => simp [CreateRedis, hdel, hcu]
      | none =>
        rcases createRedisRest_trace_cases env (addFinalizer r) with h | h <;>
          simp [CreateRedis, hdel, hcu, h]
    | some ts =>
      rcases createRedisRest_trace_cases env r with h | h <;>
        simp [CreateRedis, hdel, h]
  · cases hD : getReplicationGroups denv.svc with
    | error e => simp [deleteRedisCluster, hD]
    | ok rgs =>
      cases hF : findGroup rgs gid with
      | none =>
        cases hcu : denv.clientUpdate with
        | some e =>
          simp only [deleteRedisCluster, hD, hF, hcu]
          exact ⟨fun _ => ⟨rgs, rfl, hF⟩, fun _ => by simp⟩
        | none =>
          simp only [deleteRedisCluster, hD, hF, hcu]
          exact ⟨fun _ => ⟨rgs, rfl, hF⟩, fun _ => by simp⟩
      | some g =>
        have hnone : ¬∃ rgs', Except.ok (ε := String) rgs = Except.ok rgs' ∧
            findGroup rgs' gid = none := by
          rintro ⟨rgs', h1, h2⟩
          rw [Except.ok.injEq] at h1
          rw [← h1] at h2
          rw [hF] at h2
          exact Option.noConfusion h2
        by_cases hs : g.status = "available"
        · cases hdr : denv.svc.deleteReplicationGroup with
          | ok => simp only [deleteRedisCluster, hD, hF, hs, hdr]; simpa using hnone
          | awsError code msg =>
            by_cases hc : code = ErrCodeReplicationGroupNotFoundFault <;>
              simp only [deleteRedisCluster, hD, hF, hs, hdr] <;>
              simp [hc] <;> simpa using hnone
          | otherError msg =>
            simp only [deleteRedisCluster, hD, hF, hs, hdr]; simpa using hnone
        · simp only [deleteRedisCluster, hD, hF]
          simp [hs]
          simpa using hnone

/-- Concrete evaluation of `c1_finalizer_protocol`: on a fresh object against
an empty listing, the pass traces finalizer-add and persist before the create
call. -/
theorem c1_finalizer_protocol_witness :
    ∃ t, (CreateRedis c1EnvW c1ObjW).trace =
      PEvent.finalizerAdd :: PEvent.persistUpdate :: t :=
  (c1_finalizer_protocol c1EnvW c1EnvW c1ObjW c1ObjW "foo").1 rfl (by decide)

/-- C2: Idempotent creation. When the listing of the pass succeeds and
contains a group with the resolved id in status `available` whose first node
group carries a primary endpoint, `createRedisCluster` returns exactly that
endpoint with no error and issues no `CreateReplicationGroup` call; and any
invocation observing the same external listing — in particular a second
consecutive one, since no create call was issued to change that state —
returns the identical result. -/
theorem c2_idempotent_creation (svc : CacheSvc) (gid : String)
    (rgs : List ReplicationGroup) (g : ReplicationGroup) (ng : NodeGroup) (ep : Endpoint)
    (hD : getReplicationGroups svc = Except.ok rgs)
    (hF : findGroup rgs gid = some g)
    (hS : g.status = "available")
    (hNG : g.nodeGroups.head? = some ng)
    (hEP : ng.primaryEndpoint = some ep) :
    (createRedisCluster svc gid).result = CreateOutcome.ok (some ⟨ep.address, ep.port⟩) ∧
    (createRedisCluster svc gid).createCalled = false ∧
    ∀ svc2 : CacheSvc, svc2.describeReplicationGroups = svc.describeReplicationGroups →
      createRedisCluster svc2 gid = createRedisCluster svc gid := by
  have hstep : createRedisCluster svc gid =
      ⟨CreateOutcome.ok (some ⟨ep.address, ep.port⟩), false⟩ := by
    simp [createRedisCluster, hD, hF, hS, hNG, hEP]
  refine ⟨by rw [hstep], by rw [hstep], ?_⟩
  intro svc2 h2
  have hD2 : getReplicationGroups svc2 = Except.ok rgs := by
    unfold getReplicationGroups
    rw [h2]
    exact hD
  rw [hstep]
  simp [createRedisCluster, hD2, hF, hS, hNG, hEP]

/-- Concrete evaluation of `c2_idempotent_creation` on a one-group listing. -/
theorem c2_idempotent_creation_witness :
    (createRedisCluster c2SvcW "foo").result =
      CreateOutcome.ok (some ⟨"10.0.0.5", 6379⟩) ∧
    (createRedisCluster c2SvcW "foo").createCalled = false := by
  have h := c2_idempotent_creation c2SvcW "foo" [c2GroupW] c2GroupW
    ⟨some ⟨"10.0.0.5", 6379⟩, [⟨"foo-001", "primary"⟩]⟩ ⟨"10.0.0.5", 6379⟩
    rfl rfl rfl rfl rfl
  exact ⟨h.1, h.2.1⟩

/-- C3: No duplicate create. When the listing of the pass succeeds and
contains a group with the resolved id in a status other than `available`,
`createRedisCluster` returns no result and no error and issues no
`CreateReplicationGroup` call. -/
theorem c3_no_duplicate_create (svc : CacheSvc) (gid : String)
    (rgs : List ReplicationGroup) (g : ReplicationGroup)
    (hD : getReplicationGroups svc = Except.ok rgs)
    (hF : findGroup rgs gid = some g)
    (hS : g.status ≠ "available") :
    (createRedisCluster svc gid).result = CreateOutcome.ok none ∧
    (createRedisCluster svc gid).createCalled = false := by
  constructor <;> simp [createRedisCluster, hD, hF, hS]

/-- Concrete evaluation of `c3_no_duplicate_create` on a `creating` group. -/
theorem c3_no_duplicate_create_witness :
    (createRedisCluster c3SvcW "foo").result = CreateOutcome.ok none ∧
    (createRedisCluster c3SvcW "foo").createCalled = false :=
  c3_no_duplicate_create c3SvcW "foo" [c3GroupW] c3GroupW rfl rfl (by decide)

/-- C6: Delete idempotence and not-found normalization. With a successful
listing: an absent group yields success (once the finalizer update persists);
an available group whose delete call reports the not-found AWS classification
code yields success whatever the error's message text; an available group
whose delete call reports any other AWS code, or a non-AWS error, yields an
error. -/
theorem c6_delete_not_found_normalization (env : ProviderEnv) (gid : String) (r : RedisObj)
    (rgs : List ReplicationGroup) (g : ReplicationGroup) (code msg : String) :
    (getReplicationGroups env.svc = Except.ok rgs → findGroup rgs gid = none →
      env.clientUpdate = none → (deleteRedisCluster env gid r).err = none) ∧
    (getReplicationGroups env.svc = Except.ok rgs → findGroup rgs gid = some g →
      g.status = "available" →
      env.svc.deleteReplicationGroup =
        DeleteCallResult.awsError ErrCodeReplicationGroupNotFoundFault msg →
      (deleteRedisCluster env gid r).err = none) ∧
    (getReplicationGroups env.svc = Except.ok rgs → findGroup rgs gid = some g →
      g.status = "available" →
      env.svc.deleteReplicationGroup = DeleteCallResult.awsError code msg →
      code ≠ ErrCodeReplicationGroupNotFoundFault →
      ((deleteRedisCluster env gid r).err).isSome = true) ∧
    (getReplicationGroups env.svc = Except.ok rgs → findGroup rgs gid = some g →
      g.status = "available" →
      env.svc.deleteReplicationGroup = DeleteCallResult.otherError msg →
      ((deleteRedisCluster env gid r).err).isSome = true) := by
  refine ⟨?_, ?_, ?_, ?_⟩
  · intro hD hF hcu
    simp [deleteRedisCluster, hD, hF, hcu]
  · intro hD hF hS hdr
    simp [deleteRedisCluster, hD, hF, hS, hdr]
  · intro hD hF hS hdr hc
    simp [deleteRedisCluster, hD, hF, hS, hdr, hc]
  · intro hD hF hS hdr
    simp [deleteRedisCluster, hD, hF, hS, hdr]

/-- Concrete evaluation of `c6_delete_not_found_normalization`: all four
delete scenarios at explicit inputs. -/
theorem c6_delete_not_found_normalization_witness :
    (deleteRedisCluster c6EnvAbsent "foo" c6ObjW).err = none ∧
    (deleteRedisCluster c6EnvNotFoundErr "foo" c6ObjW).err = none ∧
    ((deleteRedisCluster c6EnvOtherAws "foo" c6ObjW).err).isSome = true ∧
    ((deleteRedisCluster c6EnvPlain "foo" c6ObjW).err).isSome = true :=
  ⟨(c6_delete_not_found_normalization c6EnvAbsent "foo" c6ObjW [] c6AvailGroup
      "x" "m").1 rfl rfl rfl,
    (c6_delete_not_found_normalization c6EnvNotFoundErr "foo" c6ObjW [c6AvailGroup]
      c6AvailGroup "x" "replication group foo not found").2.1 rfl rfl rfl rfl,
    (c6_delete_not_found_normalization c6EnvOtherAws "foo" c6ObjW [c6AvailGroup]
      c6AvailGroup "InvalidParameterValue" "bad input").2.2.1 rfl rfl rfl rfl (by decide),
    (c6_delete_not_found_normalization c6EnvPlain "foo" c6ObjW [c6AvailGroup]
      c6AvailGroup "x" "net timeout").2.2.2 rfl rfl rfl rfl⟩

/-- Behaviour of the bounded poll loop: with `j` leading failures and, if the
bound is not exhausted, a success at attempt `j`, the loop times out exactly
when `j` reaches the fuel and otherwise returns the first successful listing. -/
theorem pollLoop_spec (d : Nat → Except String (List ReplicationGroup)) (fuel : Nat) :
    ∀ (a j : Nat) (rgs : List ReplicationGroup), j ≤ fuel →
    (∀ k, k < j → ∃ e, d (a + k) = Except.error e) →
    (j < fuel → d (a + j) = Except.ok rgs) →
    pollLoop d a fuel = if j = fuel then Except.error waitTimeoutMessage else Except.ok rgs := by
  induction fuel with
  | zero =>
    intro a j rgs hj hfail hsucc
    have hj0 : j = 0 := Nat.le_zero.mp hj
    subst hj0
    simp [pollLoop]
  | succ n ih =>
    intro a j rgs hj hfail hsucc
    cases j with
    | zero =>
      have hs := hsucc (Nat.succ_pos n)
      rw [Nat.add_zero] at hs
      have hne : (0 : Nat) ≠ n + 1 := (Nat.succ_ne_zero n).symm
      simp [pollLoop, hs, hne]
    | succ j' =>
      obtain ⟨e, he⟩ := hfail 0 (Nat.succ_pos j')
      rw [Nat.add_zero] at he
      have step : pollLoop d a (n + 1) = pollLoop d (a + 1) n := by
        simp [pollLoop, he]
      have h1 : j' ≤ n := Nat.lt_succ_iff.mp hj
      have hfail2 : ∀ k, k < j' → ∃ e2, d (a + 1 + k) = Except.error e2 := by
        intro k hk
        have hk2 := hfail (k + 1) (Nat.succ_lt_succ hk)
        have harith : a + (k + 1) = a + 1 + k := by omega
        rw [harith] at hk2
        exact hk2
      have hsucc2 : j' < n → d (a + 1 + j') = Except.ok rgs := by
        intro hlt
        have hs := hsucc (Nat.succ_lt_succ hlt)
        have harith : a + (j' + 1) = a + 1 + j' := by omega
        rw [harith] at hs
        exact hs
      rw [step, ih (a + 1) j' rgs h1 hfail2 hsucc2]
      by_cases hEq : j' = n
      · simp [hEq]
      · have hne : j' + 1 ≠ n + 1 := by omega
        simp [hEq, hne]


/-- C9: Bounded retry of the listing primitive. `getReplicationGroups` makes
one describe attempt per 5-second tick up to the 5-minute bound (that is,
`pollMaxAttempts = pollTimeoutSeconds / pollIntervalSeconds + 1` attempts),
treats every error from an individual describe call as keep-polling, returns
the groups of the first successful call, and surfaces the wait-timeout error
exactly when every attempt within the bound failed. -/
theorem c9_poll_bounded_retry (svc : CacheSvc) (j : Nat) (rgs : List ReplicationGroup)
    (hj : j ≤ pollMaxAttempts)
    (hfail : ∀ k, k < j → ∃ e, svc.describeReplicationGroups k = Except.error e)
    (hsucc : j < pollMaxAttempts → svc.describeReplicationGroups j = Except.ok rgs) :
    getReplicationGroups svc =
      if j = pollMaxAttempts then Except.error waitTimeoutMessage else Except.ok rgs := by
  have h := pollLoop_spec svc.describeReplicationGroups pollMaxAttempts 0 j rgs hj
    (fun k hk => by simpa using hfail k hk)
    (fun hlt => by simpa using hsucc hlt)
  exact h

/-- Concrete evaluation of `c9_poll_bounded_retry`: a first failed attempt is
absorbed and the second attempt's listing is returned. -/
theorem c9_poll_bounded_retry_witness :
    getReplicationGroups c9SvcW = Except.ok [] := by
  have h := c9_poll_bounded_retry c9SvcW 1 []
    (by norm_num [pollMaxAttempts, pollTimeoutSeconds, pollIntervalSeconds])
    (fun k hk => by
      interval_cases k
      exact ⟨"connection reset", rfl⟩)
    (fun _ => rfl)
  have hne : (1 : Nat) ≠ pollMaxAttempts := by
    norm_num [pollMaxAttempts, pollTimeoutSeconds, pollIntervalSeconds]
  rw [if_neg hne] at h
  exact h

/-- C5: Monotone completion. A pass that finds the snapshot request already in
phase Complete returns at once with no error and no requeue; its trace is
empty, so it makes no control-plane calls and performs no phase update (the
phase is left unchanged). -/
theorem c5_monotone_completion (env : SnapshotEnv) (inst : SnapshotInstance)
    (hI : env.getInstance = GetInstanceResult.found inst)
    (hP : inst.phase = Phase.complete) :
    Reconcile env = ([], SnapOutcome.done false 0 none) := by
  simp [Reconcile, hI, hP]

/-- Concrete evaluation of `c5_monotone_completion`. -/
theorem c5_monotone_completion_witness :
    Reconcile c5EnvW = ([], SnapOutcome.done false 0 none) :=
  c5_monotone_completion c5EnvW ⟨"snapreq", "bar", Phase.complete⟩ rfl rfl

/-- C10 counterexample: the claim as stated is false for a failed
`DescribeSnapshots`. aws-sdk-go v1 allocates the output struct before
sending, so on error the `range` over the nil `Snapshots` slice performs zero
iterations and the pass continues defined: with the replication group
available and no snapshot found, it issues the create-snapshot call, updates
the phase, and returns a 60-second requeue — not a crash. -/
theorem c10_snapshot_describe_error_is_defined :
    Reconcile c10CounterEnvW =
      ([SnapEvent.strategyCheck, SnapEvent.readStrategyCall, SnapEvent.credsCall,
        SnapEvent.describeSnapshotsCall, SnapEvent.describeReplicationGroupsCall,
        SnapEvent.createSnapshotCall "bar-001",
        SnapEvent.phaseUpdate Phase.inProgress "snapshot creation in progress"],
        SnapOutcome.done true 60 none) := by
  decide

/-- C10 (amended): The pass is total only under an unstated precondition. In
any state that reaches the describe section (instance found and not Complete,
cluster fetched with the AWS strategy, config, credentials and names
resolved), if the replication-group describe call fails or returns zero
replication groups, the pass crashes (out-of-range index at
`ReplicationGroups[0]`) and performs no phase update — in particular it does
not transition the request to Failed. (A failed `DescribeSnapshots`, whose
error is equally ignored, instead leaves the allocated zero output and the
pass continues, treating the snapshot listing as empty.) -/
theorem c10_describe_misuse_crashes (env : SnapshotEnv) (inst : SnapshotInstance)
    (cr : RedisCr) (sn cn : String)
    (hI : env.getInstance = GetInstanceResult.found inst)
    (hP : inst.phase ≠ Phase.complete)
    (hR : env.getRedis = Except.ok cr)
    (hS : cr.strategy = AWSDeploymentStrategy)
    (hCfg : env.readStorageStrategy = Except.ok ())
    (hCr : env.reconcileProviderCredentials = Except.ok ())
    (hSN : env.buildSnapshotName = Except.ok sn)
    (hCN : env.buildClusterName = Except.ok cn)
    (hBad : (∃ e, env.describeReplicationGroups = Except.error e) ∨
      env.describeReplicationGroups = Except.ok []) :
    (∃ site, (Reconcile env).2 = SnapOutcome.crash site) ∧
    ∀ p m, SnapEvent.phaseUpdate p m ∉ (Reconcile env).1 := by
  have hred : Reconcile env =
      (SnapEvent.strategyCheck :: SnapEvent.readStrategyCall :: SnapEvent.credsCall ::
        (reconcileSnapshotWork env sn).1, (reconcileSnapshotWork env sn).2) := by
    simp [Reconcile, hI, hP, hR, reconcileFromStrategyCheck, hS, reconcileFromConfig, hCfg,
      reconcileFromCreds, hCr, reconcileFromNames, hSN, hCN, consEv]
  have hwork : reconcileSnapshotWork env sn =
      ([SnapEvent.describeSnapshotsCall, SnapEvent.describeReplicationGroupsCall],
        SnapOutcome.crash "cacheOutput.ReplicationGroups[0]: index out of range") := by
    rcases hBad with ⟨e, he⟩ | he <;> simp [reconcileSnapshotWork, he]
  rw [hred, hwork]
  refine ⟨⟨"cacheOutput.ReplicationGroups[0]: index out of range", rfl⟩, ?_⟩
  intro p m
  simp

/-- Concrete evaluation of `c10_describe_misuse_crashes`: the replication-group
listing comes back empty, and the pass crashes with no Failed transition. -/
theorem c10_describe_misuse_crashes_witness :
    (∃ site, (Reconcile c10EnvW).2 = SnapOutcome.crash site) ∧
    ∀ p m, SnapEvent.phaseUpdate p m ∉ (Reconcile c10EnvW).1 :=
  c10_describe_misuse_crashes c10EnvW ⟨"snapreq", "bar", Phase.pending⟩ ⟨"aws"⟩
    "snap-bar" "bar" rfl (by decide) rfl rfl rfl rfl rfl rfl
    (Or.inr rfl)

/-- C4 failing input: with the snapshot already `available`, the pass does set
phase Complete with the completion message, but it is not terminal — the
source has no return after the Complete update, so the same pass immediately
performs a further phase update overwriting Complete with InProgress and
returns a 60-second requeue. -/
theorem c4_complete_then_overwritten :
    Reconcile c4EnvW =
      ([SnapEvent.strategyCheck, SnapEvent.readStrategyCall, SnapEvent.credsCall,
        SnapEvent.describeSnapshotsCall, SnapEvent.describeReplicationGroupsCall,
        SnapEvent.phaseUpdate Phase.complete "snapshot created",
        SnapEvent.phaseUpdate Phase.inProgress "current snapshot status :  available"],
        SnapOutcome.done true 60 none) := by
  decide

/-- C7 failing input: when the fetch of the referenced Redis cr fails, the
pass sets phase Failed with the retrieval error message but does not stop —
it goes on to the strategy check against the zero-valued cluster object and
performs a second Failed update with the unsupported-strategy message,
returning that error. -/
theorem c7_get_redis_failure_continues :
    Reconcile c7EnvW =
      ([SnapEvent.phaseUpdate Phase.failed "failed to get redis cr : redis cr not found",
        SnapEvent.strategyCheck,
        SnapEvent.phaseUpdate Phase.failed "none supported deployment strategy"],
        SnapOutcome.done false 0 (some "none supported deployment strategy")) := by
  decide

/-- C8 failing input: with the replication group in status `modifying`, the
pass sets phase Failed and requeues after 60 seconds as claimed, but the
status message is the undereferenced-pointer rendering of the status field
(the source formats the `*string` with `%s` without dereferencing it), so it
contains the pointer's address, not the substring `modifying`. -/
theorem c8_pointer_message_not_status :
    Reconcile c8EnvW =
      ([SnapEvent.strategyCheck, SnapEvent.readStrategyCall, SnapEvent.credsCall,
        SnapEvent.describeSnapshotsCall, SnapEvent.describeReplicationGroupsCall,
        SnapEvent.phaseUpdate Phase.failed
          "current replication group status is %!s(*string=0xc)"],
        SnapOutcome.done true 60 none) ∧
    strContains "current replication group status is %!s(*string=0xc)" "modifying" = false ∧
    strContains "current replication group status is %!s(*string=0xc)"
      "replication group status" = true := by
  refine ⟨by decide, by decide, by decide⟩
